import Mathlib

set_option maxRecDepth 1000000

namespace SecureControls

/-! Shallow embedding of the SecureControls / Beanbag thermostat client

Source files embedded here:
- src/custom_components/securecontrols_thermostat/api.py (the authoritative
  revision: login, correlation, send/receive, writes)
- src/custom_components/securecontrols_thermostat/coordinator.py (state
  parsing and incremental notify application)
- src/custom_components/securecontrols_thermo/api.py (older revision, only
  its password digest helper, needed for the cross-revision comparison)

Conventions: Python None and JSON null are one value (`Json.null`), since
json.loads maps null to None and dict.get defaults to None. JSON numbers are
modelled as integers: every numeric field of this wire protocol (status
codes, session ids, item ids, deci-degree values, epoch timestamps) is
integral on the wire. Machine integers do not occur (Python ints are
unbounded); 32-bit arithmetic appears only inside the hash functions, where
it is taken modulo 2 ^ 32 explicitly. -/

/-- JSON values as produced by json.loads in the client. -/
inductive Json where
  | null
  | bool (b : Bool)
  | int (n : ℤ)
  | str (s : String)
  | arr (l : List Json)
  | obj (l : List (String × Json))

/-- Python truthiness of a json value (bool(x)). -/
def Json.truthy : Json → Bool
  | .null => false
  | .bool b => b
  | .int n => n != 0
  | .str s => s != ""
  | .arr l => !l.isEmpty
  | .obj l => !l.isEmpty

/-- Python dict.get(key) with default None, for an object value. dict.get is
only defined on dicts; theorems about code that calls it constrain the value
to be an object. -/
def Json.get (j : Json) (k : String) : Json :=
  match j with
  | .obj l => (l.lookup k).getD .null
  | _ => .null

/-- Python membership test: key in payload. -/
def Json.hasKey (j : Json) (k : String) : Bool :=
  match j with
  | .obj l => (l.lookup k).isSome
  | _ => false

/-- Shape test used to phrase object-only hypotheses. -/
def Json.isObj : Json → Bool
  | .obj _ => true
  | _ => false

/-- Python equality between a json value and a string literal. A non-string
never compares equal to a string. -/
def Json.eqStr (j : Json) (s : String) : Bool :=
  match j with
  | .str t => t == s
  | _ => false

/-- Python equality between a json value and an int literal. Python bools
are ints (True == 1). -/
def Json.eqInt (j : Json) (n : ℤ) : Bool :=
  match j with
  | .int m => m == n
  | .bool b => (if b then (1 : ℤ) else 0) == n
  | _ => false

/-- Python len() on json values that support it; None marks a TypeError. -/
def Json.pyLen : Json → Option ℕ
  | .str s => some s.length
  | .arr l => some l.length
  | .obj l => some l.length
  | _ => none

/-- Single-quote character, written by code point to keep it out of string
literals. -/
def squote : String := String.mk [Char.ofNat 39]

mutual

/-- Python repr of a json value. String reprs are abbreviated to always use
single quotes (Python switches to double quotes when the string itself holds
a single quote; no claim depends on that corner). -/
def Json.pyRepr : Json → String
  | .null => "None"
  | .bool b => if b then "True" else "False"
  | .int n => toString n
  | .str s => squote ++ s ++ squote
  | .arr l => "[" ++ Json.pyReprArr l ++ "]"
  | .obj l => "\x7b" ++ Json.pyReprObj l ++ "\x7d"

/-- Comma-separated reprs of the elements of a json array. -/
def Json.pyReprArr : List Json → String
  | [] => ""
  | [x] => Json.pyRepr x
  | x :: xs => Json.pyRepr x ++ ", " ++ Json.pyReprArr xs

/-- Comma-separated reprs of the entries of a json object. -/
def Json.pyReprObj : List (String × Json) → String
  | [] => ""
  | [(k, v)] => squote ++ k ++ squote ++ ": " ++ Json.pyRepr v
  | (k, v) :: xs =>
    squote ++ k ++ squote ++ ": " ++ Json.pyRepr v ++ ", " ++ Json.pyReprObj xs

end

/-- Python str() of a json value. -/
def Json.pyStr (j : Json) : String :=
  match j with
  | .str s => s
  | _ => Json.pyRepr j

/-- Code points removed by python str.strip() (the unicode whitespace set). -/
def pyWhitespace : List ℕ :=
  [9, 10, 11, 12, 13, 28, 29, 30, 31, 32, 133, 160, 5760,
   8192, 8193, 8194, 8195, 8196, 8197, 8198, 8199, 8200, 8201, 8202,
   8232, 8233, 8239, 8287, 12288]

/-- Whitespace test matching python str.strip(). -/
def pyIsSpace (c : Char) : Bool := pyWhitespace.contains c.toNat

/-- Python str.strip(): drop leading and trailing whitespace. -/
def pyStrip (s : String) : String :=
  String.mk (((s.data.dropWhile pyIsSpace).reverse.dropWhile pyIsSpace).reverse)

/-- Python str.lower(). Char.toLower lowers the ASCII range; no non-ASCII
code point lowercases onto the ASCII letters the client compares against. -/
def pyLower (s : String) : String := String.mk (s.data.map Char.toLower)

/-- Value of a nonempty all-digit character list. -/
def natOfDigits (l : List Char) : ℕ :=
  l.foldl (fun a c => 10 * a + (c.toNat - 48)) 0

/-- Digits parsed as a natural number; None unless nonempty and all digits. -/
def digitsToNat (l : List Char) : Option ℕ :=
  if l ≠ [] ∧ l.all (·.isDigit) then some (natOfDigits l) else none

/-- Python int(string): strip, optional sign, decimal digits. (Underscore
digit separators and non-decimal bases are not modelled; no input of the
protocol uses them.) -/
def pyParseInt (s : String) : Option ℤ :=
  match (pyStrip s).data with
  | [] => none
  | c :: rest =>
    if c = Char.ofNat 43 then (digitsToNat rest).map (fun n => (n : ℤ))
    else if c = Char.ofNat 45 then (digitsToNat rest).map (fun n => -(n : ℤ))
    else (digitsToNat (c :: rest)).map (fun n => (n : ℤ))

/-- Magnitude of a python float literal: digits with an optional fractional
part (exponents and inf/nan are not modelled; no input of the protocol uses
them). -/
def pyParseFloatMag (l : List Char) : Option ℚ :=
  let ip := l.takeWhile (·.isDigit)
  let rest := l.drop ip.length
  match rest with
  | [] => if ip.isEmpty then none else some ((natOfDigits ip : ℕ) : ℚ)
  | c :: frac =>
    if c = Char.ofNat 46 ∧ frac.all (·.isDigit) ∧ (¬ip.isEmpty ∨ ¬frac.isEmpty)
    then some ((natOfDigits ip : ℚ) + (natOfDigits frac : ℚ) / 10 ^ frac.length)
    else none

/-- Python float(string): strip, optional sign, decimal magnitude. -/
def pyParseFloat (s : String) : Option ℚ :=
  match (pyStrip s).data with
  | [] => none
  | c :: rest =>
    if c = Char.ofNat 43 then pyParseFloatMag rest
    else if c = Char.ofNat 45 then (pyParseFloatMag rest).map (fun q => -q)
    else pyParseFloatMag (c :: rest)

/-- Python int(x) on a json value; None marks a TypeError/ValueError. -/
def pyIntOf (j : Json) : Option ℤ :=
  match j with
  | .int n => some n
  | .bool b => some (if b then 1 else 0)
  | .str s => pyParseInt s
  | _ => none

/-- Python float(x) on a json value; None marks a TypeError/ValueError. -/
def pyFloatOf (j : Json) : Option ℚ :=
  match j with
  | .int n => some ((n : ℤ) : ℚ)
  | .bool b => some (if b then 1 else 0)
  | .str s => pyParseFloat s
  | _ => none

/-! Byte-level hash primitives (hashlib.md5 / hashlib.sha1), needed by the
password digest helpers of the two source revisions. Bytes and 32-bit words
are naturals reduced modulo 2 ^ 32 where overflow matters. -/

/-- Modulus of 32-bit words. -/
def M32 : ℕ := 4294967296

/-- 32-bit addition. -/
def add32 (a b : ℕ) : ℕ := (a + b) % M32

/-- 32-bit left rotation (n between 1 and 31). -/
def rotl32 (x n : ℕ) : ℕ := ((x <<< n) ||| (x >>> (32 - n))) % M32

/-- 32-bit complement. -/
def not32 (x : ℕ) : ℕ := x ^^^ 4294967295

/-- Little-endian bytes of a number, k bytes. -/
def toLEBytes : ℕ → ℕ → List ℕ
  | 0, _ => []
  | k + 1, n => (n % 256) :: toLEBytes k (n / 256)

/-- Big-endian bytes of a number, k bytes. -/
def toBEBytes : ℕ → ℕ → List ℕ
  | 0, _ => []
  | k + 1, n => ((n >>> (8 * k)) % 256) :: toBEBytes k n

/-- Little-endian 32-bit words from bytes (groups of four). -/
def leWords : List ℕ → List ℕ
  | b0 :: b1 :: b2 :: b3 :: rest =>
    (b0 + 256 * (b1 + 256 * (b2 + 256 * b3))) :: leWords rest
  | _ => []

/-- Big-endian 32-bit words from bytes (groups of four). -/
def beWords : List ℕ → List ℕ
  | b0 :: b1 :: b2 :: b3 :: rest =>
    (b3 + 256 * (b2 + 256 * (b1 + 256 * b0))) :: beWords rest
  | _ => []

/-- Merkle-Damgard padding: 0x80, zeros to 56 mod 64, 8 length bytes. -/
def padZeroCount (len : ℕ) : ℕ := (119 - len % 64) % 64

/-- MD5 padding (bit length appended little-endian). -/
def md5Pad (msg : List ℕ) : List ℕ :=
  msg ++ [128] ++ List.replicate (padZeroCount msg.length) 0 ++
    toLEBytes 8 ((8 * msg.length) % 2 ^ 64)

/-- SHA1 padding (bit length appended big-endian). -/
def sha1Pad (msg : List ℕ) : List ℕ :=
  msg ++ [128] ++ List.replicate (padZeroCount msg.length) 0 ++
    toBEBytes 8 ((8 * msg.length) % 2 ^ 64)

/-- MD5 round constants (floor(abs(sin(i + 1)) * 2 ^ 32)). -/
def md5K : List ℕ :=
  [0xd76aa478, 0xe8c7b756, 0x242070db, 0xc1bdceee,
   0xf57c0faf, 0x4787c62a, 0xa8304613, 0xfd469501,
   0x698098d8, 0x8b44f7af, 0xffff5bb1, 0x895cd7be,
   0x6b901122, 0xfd987193, 0xa679438e, 0x49b40821,
   0xf61e2562, 0xc040b340, 0x265e5a51, 0xe9b6c7aa,
   0xd62f105d, 0x02441453, 0xd8a1e681, 0xe7d3fbc8,
   0x21e1cde6, 0xc33707d6, 0xf4d50d87, 0x455a14ed,
   0xa9e3e905, 0xfcefa3f8, 0x676f02d9, 0x8d2a4c8a,
   0xfffa3942, 0x8771f681, 0x6d9d6122, 0xfde5380c,
   0xa4beea44, 0x4bdecfa9, 0xf6bb4b60, 0xbebfbc70,
   0x289b7ec6, 0xeaa127fa, 0xd4ef3085, 0x04881d05,
   0xd9d4d039, 0xe6db99e5, 0x1fa27cf8, 0xc4ac5665,
   0xf4292244, 0x432aff97, 0xab9423a7, 0xfc93a039,
   0x655b59c3, 0x8f0ccc92, 0xffeff47d, 0x85845dd1,
   0x6fa87e4f, 0xfe2ce6e0, 0xa3014314, 0x4e0811a1,
   0xf7537e82, 0xbd3af235, 0x2ad7d2bb, 0xeb86d391]

/-- MD5 per-round left-rotation amounts. -/
def md5S : List ℕ :=
  [7, 12, 17, 22, 7, 12, 17, 22, 7, 12, 17, 22, 7, 12, 17, 22,
   5, 9, 14, 20, 5, 9, 14, 20, 5, 9, 14, 20, 5, 9, 14, 20,
   4, 11, 16, 23, 4, 11, 16, 23, 4, 11, 16, 23, 4, 11, 16, 23,
   6, 10, 15, 21, 6, 10, 15, 21, 6, 10, 15, 21, 6, 10, 15, 21]

/-- MD5 nonlinear function for round i. -/
def md5F (i b c d : ℕ) : ℕ :=
  if i < 16 then (b &&& c) ||| (not32 b &&& d)
  else if i < 32 then (d &&& b) ||| (not32 d &&& c)
  else if i < 48 then b ^^^ c ^^^ d
  else c ^^^ (b ||| not32 d)

/-- MD5 message-word index for round i. -/
def md5G (i : ℕ) : ℕ :=
  if i < 16 then i
  else if i < 32 then (5 * i + 1) % 16
  else if i < 48 then (3 * i + 5) % 16
  else (7 * i) % 16

/-- One MD5 round on state (a, b, c, d). -/
def md5Step (m : List ℕ) (st : ℕ × ℕ × ℕ × ℕ) (i : ℕ) : ℕ × ℕ × ℕ × ℕ :=
  let (a, b, c, d) := st
  let f := add32 (add32 (add32 (md5F i b c d) a) (md5K.getD i 0))
    (m.getD (md5G i) 0)
  (d, add32 b (rotl32 f (md5S.getD i 0)), b, c)

/-- One 64-byte MD5 block. -/
def md5Chunk (st : ℕ × ℕ × ℕ × ℕ) (block : List ℕ) : ℕ × ℕ × ℕ × ℕ :=
  let m := leWords block
  let r := (List.range 64).foldl (md5Step m) st
  (add32 st.1 r.1, add32 st.2.1 r.2.1, add32 st.2.2.1 r.2.2.1,
   add32 st.2.2.2 r.2.2.2)

/-- All MD5 blocks; fuel is an upper bound on the block count, passed as the
byte count so the recursion is structural and kernel-reducible. -/
def md5Chunks : ℕ → List ℕ → ℕ × ℕ × ℕ × ℕ → ℕ × ℕ × ℕ × ℕ
  | 0, _, st => st
  | _ + 1, [], st => st
  | fuel + 1, bytes, st => md5Chunks fuel (bytes.drop 64) (md5Chunk st (bytes.take 64))

/-- MD5 digest bytes of a message. -/
def md5Bytes (msg : List ℕ) : List ℕ :=
  let padded := md5Pad msg
  let st := md5Chunks padded.length padded
    (0x67452301, 0xefcdab89, 0x98badcfe, 0x10325476)
  toLEBytes 4 st.1 ++ toLEBytes 4 st.2.1 ++ toLEBytes 4 st.2.2.1 ++
    toLEBytes 4 st.2.2.2

/-- SHA1 nonlinear function for round i. -/
def sha1F (i b c d : ℕ) : ℕ :=
  if i < 20 then (b &&& c) ||| (not32 b &&& d)
  else if i < 40 then b ^^^ c ^^^ d
  else if i < 60 then (b &&& c) ||| (b &&& d) ||| (c &&& d)
  else b ^^^ c ^^^ d

/-- SHA1 round constant for round i. -/
def sha1K (i : ℕ) : ℕ :=
  if i < 20 then 0x5a827999
  else if i < 40 then 0x6ed9eba1
  else if i < 60 then 0x8f1bbcdc
  else 0xca62c1d6

/-- SHA1 message schedule, built on a reversed word list (head is the newest
word, so w[i-3] is entry 2, w[i-16] is entry 15). -/
def sha1Extend : ℕ → List ℕ → List ℕ
  | 0, acc => acc
  | k + 1, acc =>
    sha1Extend k
      (rotl32 ((acc.getD 2 0) ^^^ (acc.getD 7 0) ^^^ (acc.getD 13 0) ^^^
        (acc.getD 15 0)) 1 :: acc)

/-- One SHA1 round on state (a, b, c, d, e). -/
def sha1Step (w : List ℕ) (st : ℕ × ℕ × ℕ × ℕ × ℕ) (i : ℕ) :
    ℕ × ℕ × ℕ × ℕ × ℕ :=
  let (a, b, c, d, e) := st
  let t := add32 (add32 (add32 (add32 (rotl32 a 5) (sha1F i b c d)) e)
    (sha1K i)) (w.getD i 0)
  (t, a, rotl32 b 30, c, d)

/-- One 64-byte SHA1 block. -/
def sha1Chunk (st : ℕ × ℕ × ℕ × ℕ × ℕ) (block : List ℕ) :
    ℕ × ℕ × ℕ × ℕ × ℕ :=
  let w := (sha1Extend 64 (beWords block).reverse).reverse
  let r := (List.range 80).foldl (sha1Step w) st
  (add32 st.1 r.1, add32 st.2.1 r.2.1, add32 st.2.2.1 r.2.2.1,
   add32 st.2.2.2.1 r.2.2.2.1, add32 st.2.2.2.2 r.2.2.2.2)

/-- All SHA1 blocks (fuel as in md5Chunks). -/
def sha1Chunks : ℕ → List ℕ → ℕ × ℕ × ℕ × ℕ × ℕ → ℕ × ℕ × ℕ × ℕ × ℕ
  | 0, _, st => st
  | _ + 1, [], st => st
  | fuel + 1, bytes, st =>
    sha1Chunks fuel (bytes.drop 64) (sha1Chunk st (bytes.take 64))

/-- SHA1 digest bytes of a message. -/
def sha1Bytes (msg : List ℕ) : List ℕ :=
  let padded := sha1Pad msg
  let st := sha1Chunks padded.length padded
    (0x67452301, 0xefcdab89, 0x98badcfe, 0x10325476, 0xc3d2e1f0)
  toBEBytes 4 st.1 ++ toBEBytes 4 st.2.1 ++ toBEBytes 4 st.2.2.1 ++
    toBEBytes 4 st.2.2.2.1 ++ toBEBytes 4 st.2.2.2.2

/-- Lowercase hex digit for a value below 16. -/
def hexChar (n : ℕ) : Char := Char.ofNat (if n < 10 then 48 + n else 87 + n)

/-- Lowercase hex string of a byte list (hexdigest output format). -/
def bytesToHex (bs : List ℕ) : String :=
  String.mk (bs.flatMap fun b => [hexChar (b / 16), hexChar (b % 16)])

/-- UTF-8 bytes of one code point. -/
def utf8Bytes (c : ℕ) : List ℕ :=
  if c < 128 then [c]
  else if c < 2048 then [192 ||| (c >>> 6), 128 ||| (c &&& 63)]
  else if c < 65536 then
    [224 ||| (c >>> 12), 128 ||| ((c >>> 6) &&& 63), 128 ||| (c &&& 63)]
  else
    [240 ||| (c >>> 18), 128 ||| ((c >>> 12) &&& 63),
     128 ||| ((c >>> 6) &&& 63), 128 ||| (c &&& 63)]

/-- python str.encode(utf-8). -/
def strUtf8 (s : String) : List ℕ := s.data.flatMap fun ch => utf8Bytes ch.toNat

/-- hashlib.md5(x).hexdigest() for a string input. -/
def md5Hex (s : String) : String := bytesToHex (md5Bytes (strUtf8 s))

/-- hashlib.sha1(x).hexdigest() for a string input. -/
def sha1Hex (s : String) : String := bytesToHex (sha1Bytes (strUtf8 s))

/-- _encode_password of the securecontrols_thermo revision (its api.py lines
59-66): SHA1 hexdigest truncated to 32 characters, returned unguarded. -/
def encode_password_thermo (pw : String) : String := (sha1Hex pw).take 32

/-- Membership in the lowercase hex alphabet 0123456789abcdef. -/
def isLowerHexChar (c : Char) : Bool :=
  c.isDigit || (97 ≤ c.toNat && c.toNat ≤ 102)

/-- _encode_password of the securecontrols_thermostat revision (api.py lines
74-82): full MD5 hexdigest, guarded to be 32 lowercase hex characters, with
ValueError raised when the guard fails. -/
def encode_password_thermostat (pw : String) : Except String String :=
  let digest := md5Hex pw
  if digest.length ≠ 32 ∨ ¬(digest.data.all isLowerHexChar) then
    .error "Password digest must be a 32-character lowercase hex string"
  else .ok digest

/-! Model of api.py: error hierarchy, login, client state, correlation. -/

/-- Thermostat metadata selected at login (gateway == device), api.py lines
44-53. gmi, sn, hn pass through python str(); the optional fields are stored
as returned by gw.get. -/
structure Thermostat where
  gmi : String
  sn : String
  hn : String
  cs : Json
  ur : Json
  hi : Json
  dt : Json
  dn : Json

/-- The ApiError exception hierarchy of api.py lines 59-68: InvalidAuth and
CannotConnect subclass ApiError; login raises a bare ApiError only for the
empty-device-list outcome. -/
inductive ApiErr where
  | apiError (msg : String)
  | invalidAuth (msg : String)
  | cannotConnect (msg : String)

/-- isinstance(e, InvalidAuth). -/
def ApiErr.isInvalidAuth : ApiErr → Bool
  | .invalidAuth _ => true
  | _ => false

/-- isinstance(e, CannotConnect). -/
def ApiErr.isCannotConnect : ApiErr → Bool
  | .cannotConnect _ => true
  | _ => false

/-- Result of a login call. crash marks a python exception outside the
ApiError hierarchy (AttributeError / TypeError / KeyError on unexpected
body shapes), which login does not catch. -/
inductive LoginOutcome where
  | ok (t : Thermostat)
  | fail (e : ApiErr)
  | crash (msg : String)

/-- Outcome classes a caller of login can distinguish (exception class, or
success). noDevice is the bare ApiError, the only one login raises. -/
inductive LoginClass where
  | success
  | authFailure
  | connectivityFailure
  | noDevice
  | pythonError
deriving DecidableEq

/-- Classification of a login outcome by exception class. -/
def LoginOutcome.classOf : LoginOutcome → LoginClass
  | .ok _ => .success
  | .fail (.invalidAuth _) => .authFailure
  | .fail (.cannotConnect _) => .connectivityFailure
  | .fail (.apiError _) => .noDevice
  | .crash _ => .pythonError

/-- HTTP login response: status code and decoded JSON body (None when the
body is not JSON, making resp.json() raise, caught at api.py line 175). The
pre-response aiohttp.ClientError path (line 162, also CannotConnect) happens
before any response exists and is outside this model. -/
structure HttpResp where
  status : ℕ
  body : Option Json

/-- The d dict of login line 180: root.get(D) or the empty dict. -/
def loginBodyD (root : Json) : Json :=
  let d0 := root.get "D"
  if d0.truthy then d0 else .obj []

/-- The gd list of login line 183: d.get(GD) or the empty list. -/
def loginBodyGD (root : Json) : Json :=
  let gd0 := (loginBodyD root).get "GD"
  if gd0.truthy then gd0 else .arr []

/-- The missing-token condition of login line 185: not jwt or not si. -/
def loginTokenMissing (root : Json) : Bool :=
  !((loginBodyD root).get "JT").truthy || !((loginBodyD root).get "SI").truthy

/-- The empty-device condition of login line 203: not gd. -/
def loginNoDevices (root : Json) : Bool := !(loginBodyGD root).truthy

/-- Wellformedness of a login body as every test shapes it: the D field,
after defaulting, is an object, and the GD field, after defaulting, is an
array. -/
def loginBodyWF (root : Json) : Bool :=
  (loginBodyD root).isObj &&
    (match loginBodyGD root with | .arr _ => true | _ => false)

/-- SecureControlsClient.login, api.py lines 146-221, from the point the
HTTP response is available: status checks, body checks, device selection.
The debug log at line 198 evaluates len(gd) eagerly, hence the pyLen crash
branch between the JT/SI check and the empty-device check. -/
def login (resp : HttpResp) : LoginOutcome :=
  if resp.status = 401 ∨ resp.status = 403 then
    .fail (.invalidAuth "HTTP unauthorized/forbidden")
  else if 500 ≤ resp.status then
    .fail (.cannotConnect "Server error")
  else
    match resp.body with
    | none => .fail (.cannotConnect "Bad JSON from login")
    | some root =>
      if ¬root.isObj then .crash "AttributeError: root.get" else
      if ¬(loginBodyD root).isObj then .crash "AttributeError: d.get" else
      if loginTokenMissing root then
        .fail (.invalidAuth "Missing JT/SI in response")
      else
        match (loginBodyGD root).pyLen with
        | none => .crash "TypeError: len(gd)"
        | some _ =>
          if loginNoDevices root then
            .fail (.apiError "Login ok but no devices (GD empty)")
          else
            match loginBodyGD root with
            | .arr (gw :: _) =>
              if ¬gw.isObj then .crash "TypeError: subscript" else
              if gw.hasKey "GMI" && gw.hasKey "SN" && gw.hasKey "HN" then
                .ok { gmi := (gw.get "GMI").pyStr, sn := (gw.get "SN").pyStr,
                      hn := (gw.get "HN").pyStr, cs := gw.get "CS",
                      ur := gw.get "UR", hi := gw.get "HI", dt := gw.get "DT",
                      dn := gw.get "DN" }
              else .crash "KeyError: gateway field"
            | _ => .crash "TypeError: subscript"

/-- Errors set on a pending future; the constructors model the distinct
python exception classes and arguments the client uses. -/
inductive FutErr where
  | cancelledError
  | reconnectReset
  | wsErrorReply (e : Json)

/-- Lifecycle of an asyncio.Future held in the pending map. -/
inductive FutState where
  | waiting
  | doneOk (v : Json)
  | doneErr (e : FutErr)

/-- future.done(). -/
def FutState.isDone : FutState → Bool
  | .waiting => false
  | _ => true

/-- The mutable client state touched by the modelled operations. ws is None
or a socket carrying its closed flag; pending is the correlation map, a
python dict (insertion-ordered, unique keys) modelled as an association
list. -/
structure ClientState where
  ws : Option Bool
  thermostat : Option Thermostat
  session_id : Option ℤ
  pending : List (String × FutState)

/-- Connection test of _send_request: not (self._ws is None or
self._ws.closed). -/
def ClientState.wsConnected (st : ClientState) : Bool :=
  match st.ws with
  | some closed => !closed
  | none => false

/-- SecureControlsClient._new_corr, lines 141-143: str(session_id or 0)
followed by a dash and a secrets.token_hex(4) draw, which this model takes
as an explicit argument. A session_id of 0 is falsy in python, hence the
extra 0 case. -/
def new_corr (session_id : Option ℤ) (tok : String) : String :=
  (match session_id with
   | some s => if s = 0 then "0" else toString s
   | none => "0") ++ "-" ++ tok

/-- Python dict assignment d[k] = v: replace in place, or append. -/
def dictSet (l : List (String × FutState)) (k : String) (v : FutState) :
    List (String × FutState) :=
  match l with
  | [] => [(k, v)]
  | (k0, v0) :: rest =>
    if k0 = k then (k0, v) :: rest else (k0, v0) :: dictSet rest k v

/-- Python dict.pop(k, None): the removed value, if any, and the rest. -/
def dictPop (l : List (String × FutState)) (k : String) :
    Option FutState × List (String × FutState) :=
  match l with
  | [] => (none, [])
  | (k0, v0) :: rest =>
    if k0 = k then (some v0, rest)
    else
      let r := dictPop rest k
      (r.1, (k0, v0) :: r.2)

/-- The request envelope built by _send_request, lines 438-448. -/
def envelope (gmi hi si : ℤ) (corr : String) (now : ℤ) (args : Option Json) :
    Json :=
  .obj [("V", .str "1.0"), ("DTS", .int now), ("I", .str corr),
        ("M", .str "Request"),
        ("P", .arr ([Json.obj [("GMI", .int gmi), ("HI", .int hi),
          ("SI", .int si)]] ++ (match args with | some a => [a] | none => [])))]

/-- Observable steps of _send_request, in program order. -/
inductive SendEvent where
  | registered (corr : String)
  | sentEnv (env : Json)

/-- sentEnv test, for counting frames put on the wire. -/
def SendEvent.isSent : SendEvent → Bool
  | .sentEnv _ => true
  | _ => false

/-- SecureControlsClient._send_request, lines 431-454, up to the point the
envelope is on the wire (the final await of the reply is the receive loop,
modelled separately): the new state, the events in program order, and the
synchronously raised exception, if any. The envelope (holding int(gmi)) is
built at line 438, before the future exists, so a ValueError from int()
also leaves the pending map untouched. -/
def send_request (st : ClientState) (hi si : ℤ) (args : Option Json)
    (tok : String) (now : ℤ) :
    ClientState × List SendEvent × Option String :=
  if ¬st.wsConnected then (st, [], some "WebSocket not connected")
  else
    match st.thermostat with
    | none => (st, [], some "No thermostat selected")
    | some t =>
      match pyParseInt t.gmi with
      | none => (st, [], some "ValueError: int() argument")
      | some g =>
        let corr := new_corr st.session_id tok
        let env := envelope g hi si corr now args
        ({ st with pending := dictSet st.pending corr .waiting },
         [.registered corr, .sentEnv env], none)

/-- SecureControlsClient.disconnect, lines 250-273: cancel both loops,
close and drop the socket, then fail every not-yet-done pending future with
asyncio.CancelledError and clear the map. Returns the new state and the
final states of the futures that were in the map (their callers still hold
them after the map is cleared). -/
def disconnect (st : ClientState) : ClientState × List (String × FutState) :=
  let finals := st.pending.map fun e =>
    (e.1, match e.2 with
          | .waiting => FutState.doneErr .cancelledError
          | f => f)
  ({ st with ws := none, pending := [] }, finals)

/-- Classification of one decoded frame by _recv_loop. crashed marks the
TypeError raised inside the loop body by self._pending.pop on an unhashable
key, which terminates the loop (the outer except then reconnects, failing
every pending request). -/
inductive RecvAction where
  | reply
  | notify
  | ignored
  | crashed
deriving DecidableEq

/-- Python hashability of a json value: None, bool, int and str hash; list
and dict raise TypeError when hashed. -/
def Json.pyHashable : Json → Bool
  | .arr _ => false
  | .obj _ => false
  | _ => true

/-- Resolution of a popped future by the correlation branch of _recv_loop,
lines 388-393: an already-done future is left as is; otherwise a frame with
an R field resolves it with that result, and a frame with only an E field
fails it with RuntimeError(payload.get(E)). -/
def resolveReply (payload : Json) (fut : FutState) : FutState :=
  if fut.isDone then fut
  else if payload.hasKey "R" then FutState.doneOk (payload.get "R")
  else FutState.doneErr (.wsErrorReply (payload.get "E"))

/-- One iteration of _recv_loop on one decoded json payload, api.py lines
385-400: the updated pending map, the future popped by the correlation
branch together with its final state, and the classification. The payload
is expected to be an object; payload.get on a non-object raises, which
terminates the loop (the reconnect path, outside this model), so theorems
constrain the payload to objects. In the correlation branch, a truthy
non-string id never equals a string key, so pop returns the default: a
hashable one (bool/int) after an ordinary lookup, an unhashable one
(nonempty array/object) only through the CPython dict.pop fast path that
returns the default without hashing when the dict is empty; with a
non-empty map an unhashable id makes pop raise TypeError, which terminates
the loop (crashed). -/
def recv_step (pending : List (String × FutState)) (payload : Json) :
    List (String × FutState) × Option (String × FutState) × RecvAction :=
  let corr := payload.get "I"
  if corr.truthy ∧ (payload.hasKey "R" ∨ payload.hasKey "E") then
    match corr with
    | .str c =>
      match dictPop pending c with
      | (some fut, rest) => (rest, some (c, resolveReply payload fut), .reply)
      | (none, _) => (pending, none, .reply)
    | corrv =>
      if corrv.pyHashable || pending.isEmpty then (pending, none, .reply)
      else (pending, none, .crashed)
  else if (payload.get "M").eqStr "Notify" then (pending, none, .notify)
  else (pending, none, .ignored)

/-! Conversions and write helpers of api.py. -/

/-- Python round() on a rational: round half to even. Rat.floor is used
rather than the floor bracket so the definition is kernel-computable; the
two agree (Rat.floor_eq_intFloor below). -/
def pyRound (q : ℚ) : ℤ :=
  if q - q.floor < 1 / 2 then q.floor
  else if 1 / 2 < q - q.floor then q.floor + 1
  else if q.floor % 2 = 0 then q.floor else q.floor + 1

/-- SecureControlsClient.c_to_deci, lines 133-135: int(round(c * 10)). -/
def c_to_deci (c : ℚ) : ℤ := pyRound (c * 10)

/-- SecureControlsClient.deci_to_c, lines 137-139: float(v) / 10.0. -/
def deci_to_c (v : ℤ) : ℚ := (v : ℚ) / 10

/-- Block/sub/slot constants of api.py lines 28-40. -/
def THERMO_HI_WRITE : ℤ := 2

/-- Thermostat state block id. -/
def THERMO_SI : ℤ := 15

/-- Slot used by the integration. -/
def THERMO_SLOT : ℤ := 1

/-- Item id of the target temperature (deci-degrees C). -/
def ITEM_TARGET : ℤ := 1

/-- Item id of the ambient temperature (deci-degrees C). -/
def ITEM_AMBIENT : ℤ := 2

/-- Item id of the hvac flag (0 off, 1 heat). -/
def ITEM_HVAC : ℤ := 3

/-- Item id of the preset (1 away, 2 home). -/
def ITEM_PRESET : ℤ := 6

/-- Item id of the humidity percentage. -/
def ITEM_HUMID : ℤ := 8

/-- Item id of the next schedule time (minutes). -/
def ITEM_NEXT_TIME : ℤ := 9

/-- Item id of the next scheduled target temperature. -/
def ITEM_NEXT_TARGET : ℤ := 10

/-- Item id of the frost-protection temperature. -/
def ITEM_FROST : ℤ := 11

/-- The args payload of _write_item: [THERMO_SLOT, dict(I, V, OT, D)]. -/
def writeArgs (item_id value ot d : ℤ) : Json :=
  .arr [.int THERMO_SLOT,
        .obj [("I", .int item_id), ("V", .int value), ("OT", .int ot),
              ("D", .int d)]]

/-- SecureControlsClient._write_item, lines 520-529: one write request on
block THERMO_HI_WRITE / sub THERMO_SI. -/
def write_item (st : ClientState) (item_id value ot d : ℤ) (tok : String)
    (now : ℤ) : ClientState × List SendEvent × Option String :=
  send_request st THERMO_HI_WRITE THERMO_SI
    (some (writeArgs item_id value ot d)) tok now

/-- SecureControlsClient.set_target_temp, lines 532-534: item ITEM_TARGET,
value c_to_deci(celsius), OT 1, D 0. -/
def set_target_temp (st : ClientState) (celsius : ℚ) (tok : String)
    (now : ℤ) : ClientState × List SendEvent × Option String :=
  write_item st ITEM_TARGET (c_to_deci celsius) 1 0 tok now

/-- Preset validation of set_preset, lines 553-564: a string is stripped,
lowercased and must be away or home; an int must be 1 or 2. -/
def presetCode : String ⊕ ℤ → Except String ℤ
  | .inl s =>
    let p := pyLower (pyStrip s)
    if p = "away" then .ok 1
    else if p = "home" then .ok 2
    else .error "Unsupported preset (expected away or home)"
  | .inr n =>
    if n = 1 ∨ n = 2 then .ok n
    else .error "Unsupported preset code (expected 1 or 2)"

/-- SecureControlsClient.set_preset, lines 548-565: validate, then write
item ITEM_PRESET. The ValueError of an unsupported preset is raised before
_write_item runs, so the state is untouched and nothing is sent. -/
def set_preset (st : ClientState) (preset : String ⊕ ℤ) (tok : String)
    (now : ℤ) : ClientState × List SendEvent × Option String :=
  match presetCode preset with
  | .error msg => (st, [], some msg)
  | .ok code => write_item st ITEM_PRESET code 1 0 tok now

/-! Model of coordinator.py: snapshot, decoders, full parse, incremental
apply. -/

/-- Coordinator name for item id 10 (same table as api.py, lines 15-22 of
coordinator.py). -/
def ITEM_NEXT_VALUE : ℤ := 10

/-- DeviceStateSnapshot: the normalized dict built by _parse_state_read,
coordinator.py lines 82-92. All eight keys are always present (possibly
None), so a parsed cache dict is always truthy; only the never-populated
initial cache is the empty dict. -/
structure Snapshot where
  hvac : Option ℤ
  preset : Option String
  target_c : Option ℚ
  ambient_c : Option ℚ
  humidity : Option ℤ
  next_change_mins : Option ℤ
  next_target_c : Option ℚ
  frost_c : Option ℚ
deriving DecidableEq

/-- The all-None snapshot of lines 82-92. -/
def emptySnapshot : Snapshot :=
  { hvac := none, preset := none, target_c := none, ambient_c := none,
    humidity := none, next_change_mins := none, next_target_c := none,
    frost_c := none }

/-- ThermoCoordinator._deci_to_c, coordinator.py lines 173-180: None stays
None, otherwise float(v) / 10.0 with conversion failures mapped to None. -/
def coord_deci_to_c (v : Json) : Option ℚ :=
  match v with
  | .null => none
  | _ => (pyFloatOf v).map fun q => q / 10

/-- ThermoCoordinator._maybe_deci_temp, lines 182-192: int(v) bounded to
the plausibility window [-500, 5000] deci-degrees, else None. -/
def maybe_deci_temp (v : Json) : Option ℚ :=
  match v with
  | .null => none
  | _ =>
    match pyIntOf v with
    | none => none
    | some iv => if -500 ≤ iv ∧ iv ≤ 5000 then some ((iv : ℚ) / 10) else none

/-- ThermoCoordinator._int_or_none, lines 194-199. -/
def int_or_none (v : Json) : Option ℤ := pyIntOf v

/-- ThermoCoordinator._preset_name, lines 201-207. -/
def preset_name (code : Option ℤ) : Option String :=
  match code with
  | some 1 => some "away"
  | some 2 => some "home"
  | _ => none

/-- The shared item-id dispatch of _parse_state_read, lines 103-124, on one
item of a block (non-dict items are skipped by the isinstance guard). -/
def applyParsedItem (s : Snapshot) (it : Json) : Snapshot :=
  if ¬it.isObj then s
  else
    let iid := it.get "I"
    let val := it.get "V"
    if iid.eqInt ITEM_HVAC then { s with hvac := int_or_none val }
    else if iid.eqInt ITEM_PRESET then
      { s with preset := preset_name (int_or_none val) }
    else if iid.eqInt ITEM_TARGET then { s with target_c := coord_deci_to_c val }
    else if iid.eqInt ITEM_AMBIENT then { s with ambient_c := maybe_deci_temp val }
    else if iid.eqInt ITEM_HUMID then { s with humidity := int_or_none val }
    else if iid.eqInt ITEM_NEXT_TIME then
      { s with next_change_mins := int_or_none val }
    else if iid.eqInt ITEM_NEXT_VALUE then
      { s with next_target_c := coord_deci_to_c val }
    else if iid.eqInt ITEM_FROST then { s with frost_c := coord_deci_to_c val }
    else s

/-- One block of _parse_state_read, lines 100-103: only dict blocks whose SI
equals 15 contribute; their item vector is walked in order. (Iterating a
truthy non-sequence item vector raises in python; no claim exercises that
corner, so such blocks contribute nothing here.) -/
def applyParsedBlock (s : Snapshot) (block : Json) : Snapshot :=
  if ¬block.isObj then s
  else if ¬(block.get "SI").eqInt 15 then s
  else
    match (fun v => if v.truthy then v else Json.arr []) (block.get "V") with
    | .arr items => items.foldl applyParsedItem s
    | _ => s

/-- ThermoCoordinator._parse_state_read, lines 77-126. -/
def parse_state_read (r : Json) : Snapshot :=
  if ¬r.isObj then emptySnapshot
  else
    match r.get "V" with
    | .arr vec => vec.foldl applyParsedBlock emptySnapshot
    | _ => emptySnapshot

/-- ThermoCoordinator._apply_notify_to_cache, coordinator.py lines 128-169:
refuse to touch the never-populated cache (the empty dict, Option.none
here); otherwise dispatch on the item id, overwrite exactly the mapped
field, and report whether the decoded value differs from the field it
replaced. Items reach this method only as dicts (checked by _on_notify,
line 65). -/
def apply_notify_to_cache (cache : Option Snapshot) (item : Json) :
    Option Snapshot × Bool :=
  match cache with
  | none => (none, false)
  | some s =>
    let iid := item.get "I"
    let val := item.get "V"
    if iid.eqInt ITEM_HVAC then
      let newv := int_or_none val
      (some { s with hvac := newv }, decide (s.hvac ≠ newv))
    else if iid.eqInt ITEM_PRESET then
      let newv := preset_name (int_or_none val)
      (some { s with preset := newv }, decide (s.preset ≠ newv))
    else if iid.eqInt ITEM_TARGET then
      let newv := coord_deci_to_c val
      (some { s with target_c := newv }, decide (s.target_c ≠ newv))
    else if iid.eqInt ITEM_AMBIENT then
      let newv := maybe_deci_temp val
      (some { s with ambient_c := newv }, decide (s.ambient_c ≠ newv))
    else if iid.eqInt ITEM_HUMID then
      let newv := int_or_none val
      (some { s with humidity := newv }, decide (s.humidity ≠ newv))
    else if iid.eqInt ITEM_NEXT_TIME then
      let newv := int_or_none val
      (some { s with next_change_mins := newv },
       decide (s.next_change_mins ≠ newv))
    else if iid.eqInt ITEM_NEXT_VALUE then
      let newv := coord_deci_to_c val
      (some { s with next_target_c := newv }, decide (s.next_target_c ≠ newv))
    else if iid.eqInt ITEM_FROST then
      let newv := coord_deci_to_c val
      (some { s with frost_c := newv }, decide (s.frost_c ≠ newv))
    else (some s, false)

/-! Concrete inputs used by witnesses (shapes taken from tests/test_api.py
and from the end-to-end scenario of spec section 8). -/

/-- Gateway entry of the login test bodies. -/
def gatewayW : Json :=
  .obj [("GMI", .int 1001), ("SN", .str "ABC"), ("HN", .str "Thermo-1")]

/-- Login response of test_login_unauthorized_status_raises_InvalidAuth. -/
def resp401W : HttpResp := { status := 401, body := some (.obj [("D", .obj [])]) }

/-- Login response of test_login_server_error_raises_CannotConnect. -/
def resp500W : HttpResp := { status := 500, body := some (.obj [("D", .obj [])]) }

/-- Login response of test_login_missing_jt_si_raises_InvalidAuth. -/
def respMissingTokW : HttpResp :=
  { status := 200,
    body := some (.obj [("RI", .int (-1)), ("D", .obj [("GD", .arr [gatewayW])])]) }

/-- Login response of test_login_no_devices_raises_ApiError. -/
def respNoDevicesW : HttpResp :=
  { status := 200,
    body := some (.obj [("RI", .int 0),
      ("D", .obj [("JT", .str "jwt"), ("SI", .int 9), ("GD", .arr [])])]) }

/-- Thermostat the websocket tests log in as. -/
def thermostatW : Thermostat :=
  { gmi := "1001", sn := "ABC", hn := "Thermo-1",
    cs := .null, ur := .null, hi := .null, dt := .null, dn := .null }

/-- A connected client with no pending requests. -/
def clientW : ClientState :=
  { ws := some false, thermostat := some thermostatW, session_id := some 42,
    pending := [] }

/-- A connected client with one waiting and one already-resolved future. -/
def clientPendingW : ClientState :=
  { clientW with pending :=
      [("42-deadbeef", FutState.waiting), ("42-cafe", FutState.doneOk (.int 1))] }

/-- The full-state read body of the section-8 scenario: block SI 15 with
target 215 deci-degrees and hvac 0. -/
def stateReadW : Json :=
  .obj [("V", .arr [.obj [("I", .int 1), ("SI", .int 15),
    ("V", .arr [.obj [("I", .int 1), ("V", .int 215), ("OT", .int 1),
                      ("D", .int 0)],
                .obj [("I", .int 3), ("V", .int 0)]]),
    ("S", .int 0)]])]

/-! Theorems. General lemmas first, then one theorem per claim, each with
its witness where the statement carries hypotheses. -/

theorem ratFloor_eq_floor (q : ℚ) : q.floor = ⌊q⌋ := by
  rw [Rat.floor_def', Rat.floor_def]

theorem pyRound_close (q : ℚ) : |(pyRound q : ℚ) - q| ≤ 1 / 2 := by
  have h0 : (⌊q⌋ : ℚ) ≤ q := Int.floor_le q
  have h1 : q < ⌊q⌋ + 1 := Int.lt_floor_add_one q
  unfold pyRound
  rw [ratFloor_eq_floor]
  split
  · rw [abs_le]
    constructor <;> linarith
  · split
    · rw [abs_le]
      constructor <;> (push_cast; linarith)
    · split <;> (rw [abs_le]; constructor <;> (push_cast; linarith))

/-- C2: for every celsius value c, decoding the encoded value,
deci_to_c (c_to_deci c), equals c to within 0.1 degrees, where encoding is
round(c * 10) to an integer and decoding is value / 10. -/
theorem c2_deci_roundtrip (c : ℚ) : |deci_to_c (c_to_deci c) - c| ≤ 1 / 10 := by
  have h := pyRound_close (c * 10)
  rw [abs_le] at h ⊢
  unfold deci_to_c c_to_deci
  constructor <;> linarith [h.1, h.2]

/-- C9: the two source revisions carry incompatible password digests: on
the password secret, the securecontrols_thermostat revision returns the
full MD5 hexdigest while the securecontrols_thermo revision returns the
truncated SHA1 hexdigest, and the two strings differ, so the two embedded
digest functions are not extensionally equal. -/
theorem c9_password_digest_divergence :
    encode_password_thermostat "secret" =
      Except.ok "5ebe2294ecd0e0f08eab7690d2a6ee69" ∧
    encode_password_thermo "secret" = "e5e9fa1ba31ecd1ae84f75caaa474f3a" ∧
    "5ebe2294ecd0e0f08eab7690d2a6ee69" ≠ "e5e9fa1ba31ecd1ae84f75caaa474f3a" :=
  ⟨by rfl, by rfl, by decide⟩

/-- C3: disconnect empties the pending map; every future that was still
waiting is failed with the distinguishable CancelledError (in particular
none is resolved with a success value), and every future that was already
done is left untouched, pointwise over the old map. -/
theorem c3_disconnect_pending (st : ClientState) :
    (disconnect st).1.pending = [] ∧
    (disconnect st).1.ws = none ∧
    List.Forall₂ (fun p q =>
      q.1 = p.1 ∧
      (p.2 = FutState.waiting → q.2 = FutState.doneErr FutErr.cancelledError) ∧
      (p.2.isDone = true → q.2 = p.2))
      st.pending (disconnect st).2 := by
  refine ⟨rfl, rfl, ?_⟩
  show List.Forall₂ _ st.pending (st.pending.map _)
  rw [List.forall₂_map_right_iff, List.forall₂_same]
  intro x _
  refine ⟨rfl, ?_, ?_⟩
  · intro hw
    rw [hw]
  · intro hd
    cases h : x.2
    case waiting =>
      rw [h] at hd
      simp [FutState.isDone] at hd
    all_goals simp [h]

/-- C3 witness: disconnecting the concrete client with one waiting and one
resolved future fails exactly the waiting one and clears the map. -/
theorem c3_disconnect_pending_witness :
    (disconnect clientPendingW).1.pending = [] ∧
    (disconnect clientPendingW).2 =
      [("42-deadbeef", FutState.doneErr FutErr.cancelledError),
       ("42-cafe", FutState.doneOk (.int 1))] :=
  ⟨(c3_disconnect_pending clientPendingW).1, by rfl⟩

/-- C7: _send_request with a live socket registers the result slot under
the new correlation id strictly before the envelope is written to the
socket (the event list is registration first, write second, nothing else);
with an absent or closed socket it fails immediately with the not-connected
RuntimeError, no event happens, and the state, in particular the pending
map, is unchanged. -/
theorem c7_send_request_order (st : ClientState) (hi si : ℤ)
    (args : Option Json) (tok : String) (now : ℤ) :
    (st.wsConnected = false →
      send_request st hi si args tok now =
        (st, [], some "WebSocket not connected")) ∧
    (∀ t g, st.wsConnected = true → st.thermostat = some t →
      pyParseInt t.gmi = some g →
      send_request st hi si args tok now =
        ({ st with pending :=
            dictSet st.pending (new_corr st.session_id tok) FutState.waiting },
         [SendEvent.registered (new_corr st.session_id tok),
          SendEvent.sentEnv (envelope g hi si (new_corr st.session_id tok)
            now args)],
         none)) := by
  constructor
  · intro h
    simp [send_request, h]
  · intro t g hc ht hg
    simp [send_request, hc, ht, hg]

/-- C7 witness: on the concrete connected client the slot for 42-deadbeef
is registered and then the envelope sent; with the socket removed, the same
call fails without touching the empty pending map. -/
theorem c7_send_request_order_witness :
    send_request { clientW with ws := none } 49 11 none "deadbeef" 1700000000 =
      ({ clientW with ws := none }, [], some "WebSocket not connected") ∧
    send_request clientW 49 11 none "deadbeef" 1700000000 =
      ({ clientW with pending := [("42-deadbeef", FutState.waiting)] },
       [SendEvent.registered "42-deadbeef",
        SendEvent.sentEnv (envelope 1001 49 11 "42-deadbeef" 1700000000 none)],
       none) := by
  constructor
  · exact (c7_send_request_order { clientW with ws := none } 49 11 none
      "deadbeef" 1700000000).1 rfl
  · exact ((c7_send_request_order clientW 49 11 none "deadbeef"
      1700000000).2 thermostatW 1001 rfl rfl (by decide)).trans (by rfl)

/-- C5: set_target_temp sends exactly one write request, targeting block
THERMO_HI_WRITE = 2 and sub THERMO_SI = 15, whose arguments are the slot 1
followed by the item dict with I = ITEM_TARGET = 1, V = round(c * 10),
OT = 1, D = 0. -/
theorem c5_set_target_temp (st : ClientState) (c : ℚ) (tok : String)
    (now : ℤ) :
    ∀ t g, st.wsConnected = true → st.thermostat = some t →
      pyParseInt t.gmi = some g →
      set_target_temp st c tok now =
        ({ st with pending :=
            dictSet st.pending (new_corr st.session_id tok) FutState.waiting },
         [SendEvent.registered (new_corr st.session_id tok),
          SendEvent.sentEnv (envelope g THERMO_HI_WRITE THERMO_SI
            (new_corr st.session_id tok) now
            (some (writeArgs ITEM_TARGET (pyRound (c * 10)) 1 0)))],
         none) ∧
      ((set_target_temp st c tok now).2.1.filter SendEvent.isSent).length = 1 := by
  intro t g hc ht hg
  have he : set_target_temp st c tok now =
      ({ st with pending :=
          dictSet st.pending (new_corr st.session_id tok) FutState.waiting },
       [SendEvent.registered (new_corr st.session_id tok),
        SendEvent.sentEnv (envelope g THERMO_HI_WRITE THERMO_SI
          (new_corr st.session_id tok) now
          (some (writeArgs ITEM_TARGET (pyRound (c * 10)) 1 0)))],
       none) := by
    simp [set_target_temp, write_item, send_request, c_to_deci, hc, ht, hg]
  refine ⟨he, ?_⟩
  rw [he]
  simp [SendEvent.isSent]

/-- C5 witness: set_target_temp(21.5) on the concrete connected client
sends one frame with item id 1, value 215, operation type 1, duration 0,
on block 2 sub 15. -/
theorem c5_set_target_temp_witness :
    set_target_temp clientW (43 / 2) "deadbeef" 1700000000 =
      ({ clientW with pending := [("42-deadbeef", FutState.waiting)] },
       [SendEvent.registered "42-deadbeef",
        SendEvent.sentEnv (envelope 1001 2 15 "42-deadbeef" 1700000000
          (some (writeArgs 1 215 1 0)))],
       none) := by
  have h := (c5_set_target_temp clientW (43 / 2) "deadbeef" 1700000000
    thermostatW 1001 rfl rfl (by decide)).1
  have h215 : ((43 / 2 : ℚ) * 10) = ((215 : ℤ) : ℚ) := by norm_num
  have hv : pyRound ((43 / 2 : ℚ) * 10) = 215 := by
    unfold pyRound
    rw [ratFloor_eq_floor, h215, Int.floor_intCast]
    norm_num
  rw [h, hv]
  rfl

/-- C10: set_preset maps strings that strip and lowercase to away or home
to write values 1 and 2 on item ITEM_PRESET = 6, passes the integers 1 and
2 through unchanged, and for every other string or integer returns the
ValueError before any frame is sent, leaving the whole client state, in
particular the pending map, unchanged. -/
theorem c10_set_preset (st : ClientState) (s : String) (n : ℤ) (tok : String)
    (now : ℤ) :
    (pyLower (pyStrip s) = "away" →
      set_preset st (.inl s) tok now = write_item st ITEM_PRESET 1 1 0 tok now) ∧
    (pyLower (pyStrip s) = "home" →
      set_preset st (.inl s) tok now = write_item st ITEM_PRESET 2 1 0 tok now) ∧
    (pyLower (pyStrip s) ≠ "away" → pyLower (pyStrip s) ≠ "home" →
      set_preset st (.inl s) tok now =
        (st, [], some "Unsupported preset (expected away or home)")) ∧
    (n = 1 ∨ n = 2 →
      set_preset st (.inr n) tok now = write_item st ITEM_PRESET n 1 0 tok now) ∧
    (n ≠ 1 → n ≠ 2 →
      set_preset st (.inr n) tok now =
        (st, [], some "Unsupported preset code (expected 1 or 2)")) := by
  refine ⟨?_, ?_, ?_, ?_, ?_⟩
  · intro h
    simp [set_preset, presetCode, h]
  · intro h
    simp [set_preset, presetCode, h]
  · intro h1 h2
    simp [set_preset, presetCode, h1, h2]
  · rintro (h | h) <;> simp [set_preset, presetCode, h]
  · intro h1 h2
    simp [set_preset, presetCode, h1, h2]

/-- C10 witness: the concrete calls. A mixed-case padded Away maps to value
1, the int 2 passes through, while the string eco and the int 7 fail before
anything reaches the correlator, leaving the client untouched. -/
theorem c10_set_preset_witness :
    set_preset clientW (.inl "  Away ") "deadbeef" 1700000000 =
      write_item clientW 6 1 1 0 "deadbeef" 1700000000 ∧
    set_preset clientW (.inr 2) "deadbeef" 1700000000 =
      write_item clientW 6 2 1 0 "deadbeef" 1700000000 ∧
    set_preset clientW (.inl "eco") "deadbeef" 1700000000 =
      (clientW, [], some "Unsupported preset (expected away or home)") ∧
    set_preset clientW (.inr 7) "deadbeef" 1700000000 =
      (clientW, [], some "Unsupported preset code (expected 1 or 2)") := by
  refine ⟨?_, ?_, ?_, ?_⟩
  · exact ((c10_set_preset clientW "  Away " 2 "deadbeef" 1700000000).1
      (by decide)).trans (by rfl)
  · exact ((c10_set_preset clientW "  Away " 2 "deadbeef"
      1700000000).2.2.2.1 (Or.inr rfl)).trans (by rfl)
  · exact (c10_set_preset clientW "eco" 2 "deadbeef" 1700000000).2.2.1
      (by decide) (by decide)
  · exact (c10_set_preset clientW "  Away " 7 "deadbeef" 1700000000).2.2.2.2
      (by decide) (by decide)

/-- C1: over the login inputs the tests exercise, the four specified
outcomes hold and are mutually exclusive: HTTP 401/403 is always an
authentication failure; HTTP at least 500 always a connectivity failure;
an HTTP 2xx object body whose token or session id is missing an
authentication failure; and an HTTP 2xx body carrying both but an empty
device list the distinct no-device ApiError, an outcome different from
the other three classes. -/
theorem c1_login_taxonomy (resp : HttpResp) :
    (resp.status = 401 ∨ resp.status = 403 →
      (login resp).classOf = .authFailure) ∧
    (500 ≤ resp.status → (login resp).classOf = .connectivityFailure) ∧
    (∀ root : Json, 200 ≤ resp.status → resp.status ≤ 299 →
      resp.body = some root → root.isObj = true → loginBodyWF root = true →
      (loginTokenMissing root = true →
        (login resp).classOf = .authFailure) ∧
      (loginTokenMissing root = false → loginNoDevices root = true →
        (login resp).classOf = .noDevice)) ∧
    [LoginClass.authFailure, LoginClass.connectivityFailure,
      LoginClass.noDevice, LoginClass.success].Nodup := by
  refine ⟨?_, ?_, ?_, by decide⟩
  · rintro (h | h) <;> simp [login, h, LoginOutcome.classOf]
  · intro h
    have h1 : ¬(resp.status = 401 ∨ resp.status = 403) := by omega
    simp [login, h1, h, LoginOutcome.classOf]
  · intro root h200 h299 hbody hobj hwf
    have h1 : ¬(resp.status = 401 ∨ resp.status = 403) := by omega
    have h2 : ¬(500 ≤ resp.status) := by omega
    have hparts := hwf
    unfold loginBodyWF at hparts
    rw [Bool.and_eq_true] at hparts
    obtain ⟨hd, hgd⟩ := hparts
    constructor
    · intro htm
      simp [login, h1, h2, hbody, hobj, hd, htm, LoginOutcome.classOf]
    · intro htm hnd
      cases hg : loginBodyGD root
      case arr l =>
        simp [login, h1, h2, hbody, hobj, hd, htm, hg, hnd, Json.pyLen,
          LoginOutcome.classOf]
      all_goals (rw [hg] at hgd; simp at hgd)

/-- C1 witness: the four test responses land in the four distinct
classes. -/
theorem c1_login_taxonomy_witness :
    (login resp401W).classOf = .authFailure ∧
    (login resp500W).classOf = .connectivityFailure ∧
    (login respMissingTokW).classOf = .authFailure ∧
    (login respNoDevicesW).classOf = .noDevice := by
  refine ⟨?_, ?_, ?_, ?_⟩
  · exact (c1_login_taxonomy resp401W).1 (Or.inl rfl)
  · exact (c1_login_taxonomy resp500W).2.1 (by decide)
  · exact ((c1_login_taxonomy respMissingTokW).2.2.1
      (.obj [("RI", .int (-1)), ("D", .obj [("GD", .arr [gatewayW])])])
      (by decide) (by decide) rfl (by decide) (by decide)).1 (by decide)
  · exact ((c1_login_taxonomy respNoDevicesW).2.2.1
      (.obj [("RI", .int 0),
        ("D", .obj [("JT", .str "jwt"), ("SI", .int 9), ("GD", .arr [])])])
      (by decide) (by decide) rfl (by decide) (by decide)).2
      (by decide) (by decide)

example : md5Hex "" = "d41d8cd98f00b204e9800998ecf8427e" := by decide

example : md5Hex "secret" = "5ebe2294ecd0e0f08eab7690d2a6ee69" := by decide

example : sha1Hex "" = "da39a3ee5e6b4b0d3255bfef95601890afd80709" := by decide

example : sha1Hex "secret" = "e5e9fa1ba31ecd1ae84f75caaa474f3a663f05f4" := by
  decide


theorem Json.eqInt_unique {j : Json} {a b : ℤ} (ha : j.eqInt a = true)
    (hb : j.eqInt b = true) : a = b := by
  cases j
  case int n =>
    simp [Json.eqInt] at ha hb
    omega
  case bool b0 =>
    cases b0 <;> simp [Json.eqInt] at ha hb <;> omega
  all_goals simp [Json.eqInt] at ha

theorem Json.eqInt_ne {j : Json} {a b : ℤ} (ha : j.eqInt a = true)
    (hne : a ≠ b) : j.eqInt b = false := by
  cases hb : j.eqInt b
  · rfl
  · exact absurd (Json.eqInt_unique ha hb) hne

/-- C4: the incremental apply on the empty, never-populated cache leaves it
unchanged and returns false; on a populated cache, an item whose id is a
known item id overwrites exactly the one snapshot field mapped to that id
(every other field of the record is carried over unchanged) and the
returned flag is the decidable test that the decoded value differs from the
value it replaced. -/
theorem c4_apply_notify (s : Snapshot) (item : Json) :
    (apply_notify_to_cache none item = (none, false)) ∧
    ((item.get "I").eqInt ITEM_HVAC = true →
      apply_notify_to_cache (some s) item =
        (some { s with hvac := int_or_none (item.get "V") },
         decide (s.hvac ≠ int_or_none (item.get "V")))) ∧
    ((item.get "I").eqInt ITEM_PRESET = true →
      apply_notify_to_cache (some s) item =
        (some { s with preset := preset_name (int_or_none (item.get "V")) },
         decide (s.preset ≠ preset_name (int_or_none (item.get "V"))))) ∧
    ((item.get "I").eqInt ITEM_TARGET = true →
      apply_notify_to_cache (some s) item =
        (some { s with target_c := coord_deci_to_c (item.get "V") },
         decide (s.target_c ≠ coord_deci_to_c (item.get "V")))) ∧
    ((item.get "I").eqInt ITEM_AMBIENT = true →
      apply_notify_to_cache (some s) item =
        (some { s with ambient_c := maybe_deci_temp (item.get "V") },
         decide (s.ambient_c ≠ maybe_deci_temp (item.get "V")))) ∧
    ((item.get "I").eqInt ITEM_HUMID = true →
      apply_notify_to_cache (some s) item =
        (some { s with humidity := int_or_none (item.get "V") },
         decide (s.humidity ≠ int_or_none (item.get "V")))) ∧
    ((item.get "I").eqInt ITEM_NEXT_TIME = true →
      apply_notify_to_cache (some s) item =
        (some { s with next_change_mins := int_or_none (item.get "V") },
         decide (s.next_change_mins ≠ int_or_none (item.get "V")))) ∧
    ((item.get "I").eqInt ITEM_NEXT_VALUE = true →
      apply_notify_to_cache (some s) item =
        (some { s with next_target_c := coord_deci_to_c (item.get "V") },
         decide (s.next_target_c ≠ coord_deci_to_c (item.get "V")))) ∧
    ((item.get "I").eqInt ITEM_FROST = true →
      apply_notify_to_cache (some s) item =
        (some { s with frost_c := coord_deci_to_c (item.get "V") },
         decide (s.frost_c ≠ coord_deci_to_c (item.get "V")))) := by
  refine ⟨rfl, ?_, ?_, ?_, ?_, ?_, ?_, ?_, ?_⟩ <;> intro h
  · simp [apply_notify_to_cache, h]
  · have h3 := Json.eqInt_ne h (show ITEM_PRESET ≠ ITEM_HVAC by decide)
    simp [apply_notify_to_cache, h, h3]
  · have h3 := Json.eqInt_ne h (show ITEM_TARGET ≠ ITEM_HVAC by decide)
    have h6 := Json.eqInt_ne h (show ITEM_TARGET ≠ ITEM_PRESET by decide)
    simp [apply_notify_to_cache, h, h3, h6]
  · have h3 := Json.eqInt_ne h (show ITEM_AMBIENT ≠ ITEM_HVAC by decide)
    have h6 := Json.eqInt_ne h (show ITEM_AMBIENT ≠ ITEM_PRESET by decide)
    have h1 := Json.eqInt_ne h (show ITEM_AMBIENT ≠ ITEM_TARGET by decide)
    simp [apply_notify_to_cache, h, h3, h6, h1]
  · have h3 := Json.eqInt_ne h (show ITEM_HUMID ≠ ITEM_HVAC by decide)
    have h6 := Json.eqInt_ne h (show ITEM_HUMID ≠ ITEM_PRESET by decide)
    have h1 := Json.eqInt_ne h (show ITEM_HUMID ≠ ITEM_TARGET by decide)
    have h2 := Json.eqInt_ne h (show ITEM_HUMID ≠ ITEM_AMBIENT by decide)
    simp [apply_notify_to_cache, h, h3, h6, h1, h2]
  · have h3 := Json.eqInt_ne h (show ITEM_NEXT_TIME ≠ ITEM_HVAC by decide)
    have h6 := Json.eqInt_ne h (show ITEM_NEXT_TIME ≠ ITEM_PRESET by decide)
    have h1 := Json.eqInt_ne h (show ITEM_NEXT_TIME ≠ ITEM_TARGET by decide)
    have h2 := Json.eqInt_ne h (show ITEM_NEXT_TIME ≠ ITEM_AMBIENT by decide)
    have h8 := Json.eqInt_ne h (show ITEM_NEXT_TIME ≠ ITEM_HUMID by decide)
    simp [apply_notify_to_cache, h, h3, h6, h1, h2, h8]
  · have h3 := Json.eqInt_ne h (show ITEM_NEXT_VALUE ≠ ITEM_HVAC by decide)
    have h6 := Json.eqInt_ne h (show ITEM_NEXT_VALUE ≠ ITEM_PRESET by decide)
    have h1 := Json.eqInt_ne h (show ITEM_NEXT_VALUE ≠ ITEM_TARGET by decide)
    have h2 := Json.eqInt_ne h (show ITEM_NEXT_VALUE ≠ ITEM_AMBIENT by decide)
    have h8 := Json.eqInt_ne h (show ITEM_NEXT_VALUE ≠ ITEM_HUMID by decide)
    have h9 := Json.eqInt_ne h (show ITEM_NEXT_VALUE ≠ ITEM_NEXT_TIME by decide)
    simp [apply_notify_to_cache, h, h3, h6, h1, h2, h8, h9]
  · have h3 := Json.eqInt_ne h (show ITEM_FROST ≠ ITEM_HVAC by decide)
    have h6 := Json.eqInt_ne h (show ITEM_FROST ≠ ITEM_PRESET by decide)
    have h1 := Json.eqInt_ne h (show ITEM_FROST ≠ ITEM_TARGET by decide)
    have h2 := Json.eqInt_ne h (show ITEM_FROST ≠ ITEM_AMBIENT by decide)
    have h8 := Json.eqInt_ne h (show ITEM_FROST ≠ ITEM_HUMID by decide)
    have h9 := Json.eqInt_ne h (show ITEM_FROST ≠ ITEM_NEXT_TIME by decide)
    have h10 := Json.eqInt_ne h (show ITEM_FROST ≠ ITEM_NEXT_VALUE by decide)
    simp [apply_notify_to_cache, h, h3, h6, h1, h2, h8, h9, h10]

/-- C4 witness: on the empty cache the section-8 hvac notify item changes
nothing and reports false; after the full parse of the section-8 state
read (hvac 0, target 21.5) the same item flips exactly the hvac field and
reports true. -/
theorem c4_apply_notify_witness :
    apply_notify_to_cache none (.obj [("I", .int 3), ("V", .int 1)]) =
      (none, false) ∧
    apply_notify_to_cache (some (parse_state_read stateReadW))
        (.obj [("I", .int 3), ("V", .int 1)]) =
      (some { parse_state_read stateReadW with hvac := some 1 }, true) := by
  refine ⟨(c4_apply_notify emptySnapshot
    (.obj [("I", .int 3), ("V", .int 1)])).1, ?_⟩
  have h := (c4_apply_notify (parse_state_read stateReadW)
    (.obj [("I", .int 3), ("V", .int 1)])).2.1 (by decide)
  rw [h]
  rfl
/-- C6 counterexample: the frame with a truthy correlation id x, a result
field and message kind Notify, arriving while no pending request matches
(the map is empty), is consumed by the correlation branch and never treated
as a notification, although the claim, whose first case requires a matching
PendingRequest, places this frame in its otherwise-case and so predicts it
is queued as a notification. -/
theorem c6_recv_counterexample :
    ((Json.obj [("I", .str "x"), ("R", .int 0), ("M", .str "Notify")]).get
      "I").truthy = true ∧
    (Json.obj [("I", .str "x"), ("R", .int 0),
      ("M", .str "Notify")]).hasKey "R" = true ∧
    (dictPop [] "x").1 = none ∧
    ((Json.obj [("I", .str "x"), ("R", .int 0), ("M", .str "Notify")]).get
      "M").eqStr "Notify" = true ∧
    (recv_step [] (Json.obj [("I", .str "x"), ("R", .int 0),
      ("M", .str "Notify")])).2.2 ≠ RecvAction.notify := by
  refine ⟨by decide, by decide, rfl, by decide, by decide⟩

theorem recv_step_reply_eq (pending : List (String × FutState))
    (payload : Json) (c : String)
    (hcond : (payload.get "I").truthy = true ∧
      (payload.hasKey "R" = true ∨ payload.hasKey "E" = true))
    (hI : payload.get "I" = .str c) :
    recv_step pending payload =
      match dictPop pending c with
      | (some fut, rest) => (rest, some (c, resolveReply payload fut),
          RecvAction.reply)
      | (none, _) => (pending, none, RecvAction.reply) := by
  have hcond2 := hcond
  rw [hI] at hcond2
  simp [recv_step, hI, hcond2]

/-- C6 amended: a frame carrying a truthy correlation id and a result or
error field is never treated as a notification. With a string id it is
consumed by the correlation branch: a matching pending request is exactly
the one popped and resolved (result) or failed (error), and with no match
nothing is resolved and the map is unchanged. A truthy hashable non-string
id, or an unhashable id over an empty pending map (the CPython dict.pop
fast path), is likewise consumed with no effect; an unhashable id over a
non-empty pending map raises TypeError in pending.pop, terminating the
receive loop. Only a frame without reply markers is checked for message
kind Notify and dispatched as a notification; every remaining object frame
is ignored with no effect. -/
theorem c6_recv_classification (pending : List (String × FutState))
    (payload : Json) :
    (payload.isObj = true →
      ((payload.get "I").truthy = true →
        (payload.hasKey "R" = true ∨ payload.hasKey "E" = true) →
        (recv_step pending payload).2.2 ≠ RecvAction.notify ∧
        (∀ c fut rest, payload.get "I" = .str c →
          dictPop pending c = (some fut, rest) →
          recv_step pending payload =
            (rest, some (c, resolveReply payload fut), RecvAction.reply)) ∧
        (∀ c, payload.get "I" = .str c → (dictPop pending c).1 = none →
          recv_step pending payload = (pending, none, RecvAction.reply)) ∧
        ((∀ c, payload.get "I" ≠ Json.str c) →
          ((payload.get "I").pyHashable = true ∨ pending = [] →
            recv_step pending payload = (pending, none, RecvAction.reply)) ∧
          ((payload.get "I").pyHashable = false → pending ≠ [] →
            recv_step pending payload =
              (pending, none, RecvAction.crashed)))) ∧
      (¬((payload.get "I").truthy = true ∧
         (payload.hasKey "R" = true ∨ payload.hasKey "E" = true)) →
        ((payload.get "M").eqStr "Notify" = true →
          recv_step pending payload = (pending, none, RecvAction.notify)) ∧
        ((payload.get "M").eqStr "Notify" = false →
          recv_step pending payload = (pending, none, RecvAction.ignored)))) := by
  intro _
  constructor
  · intro hT hRE
    have hcond : (payload.get "I").truthy = true ∧
        (payload.hasKey "R" = true ∨ payload.hasKey "E" = true) := ⟨hT, hRE⟩
    refine ⟨?_, ?_, ?_, ?_⟩
    · cases hI : payload.get "I"
      case str c =>
        rw [recv_step_reply_eq pending payload c hcond hI]
        cases hP : dictPop pending c with
        | mk fo rest => cases fo <;> simp [hP]
      all_goals (
        have hcond2 := hcond
        rw [hI] at hcond2
        simp only [recv_step, hI]
        simp only [hcond2, and_self, if_true]
        split <;> simp)
    · intro c fut rest hI hP
      rw [recv_step_reply_eq pending payload c hcond hI]
      simp [hP]
    · intro c hI hP
      rw [recv_step_reply_eq pending payload c hcond hI]
      cases hQ : dictPop pending c with
      | mk fo rest =>
        rw [hQ] at hP
        simp at hP
        subst hP
        simp [hQ]
    · intro hNs
      constructor
      · intro hOr
        have hB : ((payload.get "I").pyHashable || pending.isEmpty) = true := by
          rcases hOr with hH | hE
          · simp [hH]
          · simp [hE]
        cases hI : payload.get "I"
        case str c => exact absurd hI (hNs c)
        all_goals (
          have hcond2 := hcond
          rw [hI] at hcond2
          rw [hI] at hB
          simp only [recv_step, hI]
          simp only [hcond2, and_self, if_true]
          simp [hB])
      · intro hH hne
        have hB : ((payload.get "I").pyHashable || pending.isEmpty) = false := by
          have hpe : pending.isEmpty = false := by
            cases pending
            · exact absurd rfl hne
            · rfl
          simp [hH, hpe]
        cases hI : payload.get "I"
        case str c => exact absurd hI (hNs c)
        all_goals (
          have hcond2 := hcond
          rw [hI] at hcond2
          rw [hI] at hB
          simp only [recv_step, hI]
          simp only [hcond2, and_self, if_true]
          simp [hB])
  · intro hnot
    constructor <;> intro hM <;> simp [recv_step, hnot, hM]

/-- C6 witness for the amended statement: a matching reply frame resolves
exactly its slot; an unhashable array id over the same non-empty map
terminates the loop; and a plain Notify frame is dispatched as a
notification. -/
theorem c6_recv_classification_witness :
    recv_step [("42-deadbeef", FutState.waiting)]
        (.obj [("I", .str "42-deadbeef"), ("R", .int 7)]) =
      ([], some ("42-deadbeef", FutState.doneOk (.int 7)), RecvAction.reply) ∧
    recv_step [("42-deadbeef", FutState.waiting)]
        (.obj [("I", .arr [.int 1]), ("R", .int 7)]) =
      ([("42-deadbeef", FutState.waiting)], none, RecvAction.crashed) ∧
    recv_step [("42-deadbeef", FutState.waiting)]
        (.obj [("M", .str "Notify"), ("P", .arr [])]) =
      ([("42-deadbeef", FutState.waiting)], none, RecvAction.notify) := by
  refine ⟨?_, ?_, ?_⟩
  · exact (((c6_recv_classification [("42-deadbeef", FutState.waiting)]
      (.obj [("I", .str "42-deadbeef"), ("R", .int 7)])) (by decide)).1
      (by decide) (Or.inl (by decide))).2.1 "42-deadbeef" FutState.waiting []
      (by rfl) (by rfl) |>.trans (by rfl)
  · exact ((((c6_recv_classification [("42-deadbeef", FutState.waiting)]
      (.obj [("I", .arr [.int 1]), ("R", .int 7)])) (by decide)).1
      (by decide) (Or.inl (by decide))).2.2.2
      (fun c h => nomatch h)).2 (by decide) (List.cons_ne_nil _ _)
  · exact (((c6_recv_classification [("42-deadbeef", FutState.waiting)]
      (.obj [("M", .str "Notify"), ("P", .arr [])])) (by decide)).2
      (by decide)).1 (by decide)

theorem wsConnected_iff (st : ClientState) :
    st.wsConnected = true ↔ st.ws = some false := by
  unfold ClientState.wsConnected
  cases st.ws with
  | none => simp
  | some c => cases c <;> simp

theorem lookup_dictSet_self (l : List (String × FutState)) (k : String)
    (v : FutState) : (dictSet l k v).lookup k = some v := by
  induction l with
  | nil => simp [dictSet, List.lookup]
  | cons e rest ih =>
    obtain ⟨k0, v0⟩ := e
    by_cases h : k0 = k
    · subst h
      simp [dictSet, List.lookup]
    · have hb : (k == k0) = false := beq_eq_false_iff_ne.mpr (Ne.symm h)
      simp [dictSet, h, List.lookup, hb, ih]

theorem lookup_dictSet_ne (l : List (String × FutState)) {k k2 : String}
    (v : FutState) (h : k ≠ k2) :
    (dictSet l k v).lookup k2 = l.lookup k2 := by
  induction l with
  | nil =>
    have hb : (k2 == k) = false := beq_eq_false_iff_ne.mpr (Ne.symm h)
    simp [dictSet, List.lookup, hb]
  | cons e rest ih =>
    obtain ⟨k0, v0⟩ := e
    by_cases h0 : k0 = k
    · subst h0
      have hb : (k2 == k0) = false := beq_eq_false_iff_ne.mpr (Ne.symm h)
      simp [dictSet, List.lookup, hb]
    · cases hb : (k2 == k0) <;> simp [dictSet, h0, List.lookup, hb, ih]

theorem keys_dictSet_of_mem (l : List (String × FutState)) (k : String)
    (v : FutState) (hm : k ∈ l.map Prod.fst) :
    (dictSet l k v).map Prod.fst = l.map Prod.fst := by
  induction l with
  | nil => simp at hm
  | cons e rest ih =>
    obtain ⟨k0, v0⟩ := e
    by_cases h : k0 = k
    · subst h
      simp [dictSet]
    · rw [List.map_cons, List.mem_cons] at hm
      rcases hm with heq | hm
      · exact absurd heq.symm h
      · simp [dictSet, h, ih hm]

theorem keys_dictSet_of_not_mem (l : List (String × FutState)) (k : String)
    (v : FutState) (hm : k ∉ l.map Prod.fst) :
    (dictSet l k v).map Prod.fst = l.map Prod.fst ++ [k] := by
  induction l with
  | nil => simp [dictSet]
  | cons e rest ih =>
    obtain ⟨k0, v0⟩ := e
    rw [List.map_cons, List.mem_cons] at hm
    push_neg at hm
    have h : k0 ≠ k := fun hh => hm.1 hh.symm
    simp [dictSet, h, ih hm.2]

theorem nodup_keys_dictSet (l : List (String × FutState)) (k : String)
    (v : FutState) (h : (l.map Prod.fst).Nodup) :
    ((dictSet l k v).map Prod.fst).Nodup := by
  by_cases hm : k ∈ l.map Prod.fst
  · rw [keys_dictSet_of_mem l k v hm]
    exact h
  · rw [keys_dictSet_of_not_mem l k v hm]
    simp [List.nodup_append, h, hm]

theorem lookup_eq_none_of_not_mem (l : List (String × FutState)) (k : String)
    (h : k ∉ l.map Prod.fst) : l.lookup k = none := by
  induction l with
  | nil => rfl
  | cons e rest ih =>
    obtain ⟨k0, v0⟩ := e
    rw [List.map_cons, List.mem_cons] at h
    push_neg at h
    have hb : (k == k0) = false := beq_eq_false_iff_ne.mpr h.1
    simp [List.lookup, hb, ih h.2]

theorem dictPop_fst (l : List (String × FutState)) (k : String) :
    (dictPop l k).1 = l.lookup k := by
  induction l with
  | nil => simp [dictPop, List.lookup]
  | cons e rest ih =>
    obtain ⟨k0, v0⟩ := e
    by_cases h : k0 = k
    · subst h
      simp [dictPop, List.lookup]
    · have hb : (k == k0) = false := beq_eq_false_iff_ne.mpr (Ne.symm h)
      simp [dictPop, h, List.lookup, hb, ih]

theorem dictPop_snd_lookup_ne (l : List (String × FutState)) {k k2 : String}
    (h : k ≠ k2) : (dictPop l k).2.lookup k2 = l.lookup k2 := by
  induction l with
  | nil => simp [dictPop]
  | cons e rest ih =>
    obtain ⟨k0, v0⟩ := e
    by_cases h0 : k0 = k
    · subst h0
      have hb : (k2 == k0) = false := beq_eq_false_iff_ne.mpr (Ne.symm h)
      simp [dictPop, List.lookup, hb]
    · cases hb : (k2 == k0) <;> simp [dictPop, h0, List.lookup, hb, ih]

theorem dictPop_snd_lookup_self (l : List (String × FutState)) (k : String)
    (h : (l.map Prod.fst).Nodup) : (dictPop l k).2.lookup k = none := by
  induction l with
  | nil => simp [dictPop, List.lookup]
  | cons e rest ih =>
    obtain ⟨k0, v0⟩ := e
    rw [List.map_cons, List.nodup_cons] at h
    by_cases h0 : k0 = k
    · subst h0
      simpa [dictPop] using lookup_eq_none_of_not_mem rest k0 h.1
    · have hb : (k == k0) = false := beq_eq_false_iff_ne.mpr (Ne.symm h0)
      simp [dictPop, h0, List.lookup, hb, ih h.2]

theorem new_corr_ne_empty (sid : Option ℤ) (tok : String) :
    new_corr sid tok ≠ "" := by
  unfold new_corr
  intro h
  have hlen := congrArg String.length h
  rw [String.length_append, String.length_append] at hlen
  have h1 : ("-" : String).length = 1 := rfl
  have h0 : ("" : String).length = 0 := rfl
  rw [h1, h0] at hlen
  omega

theorem new_corr_inj (sid : Option ℤ) {t1 t2 : String}
    (h : new_corr sid t1 = new_corr sid t2) : t1 = t2 := by
  unfold new_corr at h
  have hd := congrArg String.data h
  rw [String.data_append, String.data_append, String.data_append,
    String.data_append] at hd
  exact String.ext (List.append_cancel_left hd)

/-- C8 counterexample: the id generator has no collision guard. When the
two secrets.token_hex(4) draws coincide, both requests register under the
same correlation id while the first PendingRequest is live (the id is
reused: the second event trace registers the id the first send already
registered and had not resolved), the second dict assignment overwrites
the first slot so the map holds a single entry for two outstanding
requests, and the one reply for that id pops that single slot and leaves
the map empty, so the first call can never be resolved. -/
theorem c8_correlation_collision_counterexample :
    (send_request clientW 49 11 none "deadbeef" 1700000000).2.1.head? =
      some (SendEvent.registered "42-deadbeef") ∧
    (send_request clientW 49 11 none "deadbeef" 1700000000).1.pending =
      [("42-deadbeef", FutState.waiting)] ∧
    (send_request (send_request clientW 49 11 none "deadbeef"
        1700000000).1 17 11 none "deadbeef" 1700000001).2.1.head? =
      some (SendEvent.registered "42-deadbeef") ∧
    (send_request (send_request clientW 49 11 none "deadbeef"
        1700000000).1 17 11 none "deadbeef" 1700000001).1.pending =
      [("42-deadbeef", FutState.waiting)] ∧
    recv_step [("42-deadbeef", FutState.waiting)]
        (.obj [("I", .str "42-deadbeef"), ("R", .int 7)]) =
      ([], some ("42-deadbeef", FutState.doneOk (.int 7)),
       RecvAction.reply) :=
  ⟨rfl, rfl, rfl, rfl, rfl⟩

/-- C8 amended: whenever the two random token draws differ (the code
itself does not rule a collision out), two requests in the same session
get distinct correlation ids; after both are registered the pending map
still has no duplicate key (at most one live PendingRequest per
correlation id), both slots wait under their own id, and the reply frame
carrying one id resolves exactly that slot while the other slot stays
waiting in the map, in both directions. -/
theorem c8_correlation_isolation (st : ClientState) (hi1 si1 hi2 si2 : ℤ)
    (a1 a2 : Option Json) (t1 t2 : String) (now1 now2 : ℤ) (t : Thermostat)
    (g : ℤ) (v : Json) (hc : st.wsConnected = true)
    (ht : st.thermostat = some t) (hg : pyParseInt t.gmi = some g)
    (htok : t1 ≠ t2) (hnd : (st.pending.map Prod.fst).Nodup) :
    new_corr st.session_id t1 ≠ new_corr st.session_id t2 ∧
    (send_request (send_request st hi1 si1 a1 t1 now1).1 hi2 si2 a2 t2
        now2).1.pending =
      dictSet (dictSet st.pending (new_corr st.session_id t1)
        FutState.waiting) (new_corr st.session_id t2) FutState.waiting ∧
    ((dictSet (dictSet st.pending (new_corr st.session_id t1)
        FutState.waiting) (new_corr st.session_id t2)
        FutState.waiting).map Prod.fst).Nodup ∧
    (dictSet (dictSet st.pending (new_corr st.session_id t1)
        FutState.waiting) (new_corr st.session_id t2)
        FutState.waiting).lookup (new_corr st.session_id t1) =
      some FutState.waiting ∧
    (dictSet (dictSet st.pending (new_corr st.session_id t1)
        FutState.waiting) (new_corr st.session_id t2)
        FutState.waiting).lookup (new_corr st.session_id t2) =
      some FutState.waiting ∧
    recv_step (dictSet (dictSet st.pending (new_corr st.session_id t1)
        FutState.waiting) (new_corr st.session_id t2) FutState.waiting)
        (.obj [("I", .str (new_corr st.session_id t1)), ("R", v)]) =
      ((dictPop (dictSet (dictSet st.pending (new_corr st.session_id t1)
          FutState.waiting) (new_corr st.session_id t2) FutState.waiting)
          (new_corr st.session_id t1)).2,
       some (new_corr st.session_id t1, FutState.doneOk v),
       RecvAction.reply) ∧
    (dictPop (dictSet (dictSet st.pending (new_corr st.session_id t1)
        FutState.waiting) (new_corr st.session_id t2) FutState.waiting)
        (new_corr st.session_id t1)).2.lookup (new_corr st.session_id t2) =
      some FutState.waiting ∧
    (dictPop (dictSet (dictSet st.pending (new_corr st.session_id t1)
        FutState.waiting) (new_corr st.session_id t2) FutState.waiting)
        (new_corr st.session_id t1)).2.lookup (new_corr st.session_id t1) =
      none ∧
    recv_step (dictSet (dictSet st.pending (new_corr st.session_id t1)
        FutState.waiting) (new_corr st.session_id t2) FutState.waiting)
        (.obj [("I", .str (new_corr st.session_id t2)), ("R", v)]) =
      ((dictPop (dictSet (dictSet st.pending (new_corr st.session_id t1)
          FutState.waiting) (new_corr st.session_id t2) FutState.waiting)
          (new_corr st.session_id t2)).2,
       some (new_corr st.session_id t2, FutState.doneOk v),
       RecvAction.reply) ∧
    (dictPop (dictSet (dictSet st.pending (new_corr st.session_id t1)
        FutState.waiting) (new_corr st.session_id t2) FutState.waiting)
        (new_corr st.session_id t2)).2.lookup (new_corr st.session_id t1) =
      some FutState.waiting := by
  have hws : st.ws = some false := (wsConnected_iff st).mp hc
  have hne : new_corr st.session_id t1 ≠ new_corr st.session_id t2 :=
    fun h => htok (new_corr_inj st.session_id h)
  have hp2 : (send_request (send_request st hi1 si1 a1 t1 now1).1 hi2 si2 a2
      t2 now2).1.pending =
      dictSet (dictSet st.pending (new_corr st.session_id t1)
        FutState.waiting) (new_corr st.session_id t2) FutState.waiting := by
    simp [send_request, ClientState.wsConnected, hws, ht, hg]
  have hnd2 : ((dictSet (dictSet st.pending (new_corr st.session_id t1)
      FutState.waiting) (new_corr st.session_id t2)
      FutState.waiting).map Prod.fst).Nodup :=
    nodup_keys_dictSet _ _ _ (nodup_keys_dictSet _ _ _ hnd)
  have hl1 : (dictSet (dictSet st.pending (new_corr st.session_id t1)
      FutState.waiting) (new_corr st.session_id t2)
      FutState.waiting).lookup (new_corr st.session_id t1) =
      some FutState.waiting := by
    rw [lookup_dictSet_ne _ _ (Ne.symm hne), lookup_dictSet_self]
  have hl2 : (dictSet (dictSet st.pending (new_corr st.session_id t1)
      FutState.waiting) (new_corr st.session_id t2)
      FutState.waiting).lookup (new_corr st.session_id t2) =
      some FutState.waiting := lookup_dictSet_self _ _ _
  have hrecv : ∀ c : String,
      (dictSet (dictSet st.pending (new_corr st.session_id t1)
        FutState.waiting) (new_corr st.session_id t2)
        FutState.waiting).lookup c = some FutState.waiting →
      c ≠ "" →
      recv_step (dictSet (dictSet st.pending (new_corr st.session_id t1)
          FutState.waiting) (new_corr st.session_id t2) FutState.waiting)
          (.obj [("I", .str c), ("R", v)]) =
        ((dictPop (dictSet (dictSet st.pending (new_corr st.session_id t1)
            FutState.waiting) (new_corr st.session_id t2) FutState.waiting)
            c).2,
         some (c, FutState.doneOk v), RecvAction.reply) := by
    intro c hlc hcne
    have hgetI : (Json.obj [("I", Json.str c), ("R", v)]).get "I" =
        Json.str c := rfl
    have hkey := recv_step_reply_eq
      (dictSet (dictSet st.pending (new_corr st.session_id t1)
        FutState.waiting) (new_corr st.session_id t2) FutState.waiting)
      (.obj [("I", .str c), ("R", v)]) c
      (by
        refine ⟨?_, Or.inl rfl⟩
        rw [hgetI]
        simp [Json.truthy, hcne])
      hgetI
    rw [hkey]
    cases hQ : dictPop (dictSet (dictSet st.pending
        (new_corr st.session_id t1) FutState.waiting)
        (new_corr st.session_id t2) FutState.waiting) c with
    | mk fo rest =>
      have hfo : fo = some FutState.waiting := by
        have := dictPop_fst (dictSet (dictSet st.pending
          (new_corr st.session_id t1) FutState.waiting)
          (new_corr st.session_id t2) FutState.waiting) c
        rw [hQ] at this
        simpa [hlc] using this
      subst hfo
      simp [hQ, resolveReply, FutState.isDone, Json.hasKey, Json.get,
        List.lookup]
  refine ⟨hne, hp2, hnd2, hl1, hl2, ?_, ?_, ?_, ?_, ?_⟩
  · exact hrecv _ hl1 (new_corr_ne_empty _ _)
  · rw [dictPop_snd_lookup_ne _ hne]
    exact hl2
  · exact dictPop_snd_lookup_self _ _ hnd2
  · exact hrecv _ hl2 (new_corr_ne_empty _ _)
  · rw [dictPop_snd_lookup_ne _ (Ne.symm hne)]
    exact hl1

/-- C8 witness: on the concrete connected client, the tokens deadbeef and
cafe0001 give distinct correlation ids, both slots wait under their own
id, and the reply for the first id resolves it while the second slot stays
waiting. -/
theorem c8_correlation_isolation_witness :
    new_corr (some 42) "deadbeef" ≠ new_corr (some 42) "cafe0001" ∧
    recv_step (dictSet (dictSet [] (new_corr (some 42) "deadbeef")
        FutState.waiting) (new_corr (some 42) "cafe0001") FutState.waiting)
        (.obj [("I", .str (new_corr (some 42) "deadbeef")),
          ("R", .int 7)]) =
      ((dictPop (dictSet (dictSet [] (new_corr (some 42) "deadbeef")
          FutState.waiting) (new_corr (some 42) "cafe0001")
          FutState.waiting) (new_corr (some 42) "deadbeef")).2,
       some (new_corr (some 42) "deadbeef", FutState.doneOk (.int 7)),
       RecvAction.reply) ∧
    (dictPop (dictSet (dictSet [] (new_corr (some 42) "deadbeef")
        FutState.waiting) (new_corr (some 42) "cafe0001")
        FutState.waiting) (new_corr (some 42) "deadbeef")).2.lookup
      (new_corr (some 42) "cafe0001") = some FutState.waiting := by
  have h := c8_correlation_isolation clientW 49 11 17 11 none none
    "deadbeef" "cafe0001" 1700000000 1700000001 thermostatW 1001 (.int 7)
    rfl rfl (by decide) (by decide) (by simp [clientW])
  exact ⟨h.1, h.2.2.2.2.2.1, h.2.2.2.2.2.2.1⟩

end SecureControls
